import Mathlib

/-!
Shallow embedding of `src/mapchete/formats/default/gpkg.py`: the GeoPackage
output driver of mapchete.  The file defines an `OutputDataWriter` (write-side
fan-out of a feature batch over all output tiles intersecting a process tile,
plus configuration validation) and an `InputTile` (read-side view with a cache
keyed by the boolean `validity_check` flag, cleared on scope exit).

External collaborators (the fiona codec, the tile pyramid's `intersecting`,
the upstream process's `get_raw_output`) are passed in as parameters.  Side
effects of the write path (directory preparation, codec encode calls) are
recorded as an explicit event trace.  Python exceptions are modelled with
`Except`.
-/

namespace Gpkg

/-- A tile identifier: zoom, row, column, as in the surrounding tiling
library.  Only its identity matters to this driver. -/
structure Tile where
  zoom : Nat
  row : Nat
  col : Nat
deriving DecidableEq, Repr

/-- Embeds `BufferedTile(tile, self.pixelbuffer)`: a tile together with the
pixel-buffer distance applied before encoding. -/
structure BufferedTile where
  tile : Tile
  pixelbuffer : Nat
deriving DecidableEq, Repr

/-- A Python-like value appearing in an output configuration mapping:
strings, nested mappings, or anything else. -/
inductive PyVal where
  | str (s : String)
  | dict (entries : List (String × PyVal))
  | other

/-- The two type tags `validate_values` is asked to check in this driver:
`dict` and `str`. -/
inductive VType where
  | dict
  | str
deriving DecidableEq, Repr

/-- Python `isinstance(v, t)` for the two type tags used here. -/
def isType : PyVal → VType → Bool
  | PyVal.dict _, VType.dict => true
  | PyVal.str _, VType.str => true
  | _, _ => false

/-- First-match lookup in a key/value mapping, embedding Python dict
indexing (`config[k]`) and membership (`k in config`). -/
def lookupKey : List (String × PyVal) → String → Option PyVal
  | [], _ => none
  | (k, v) :: rest, key => if k = key then some v else lookupKey rest key

/-- The Python exceptions this driver can raise. -/
inductive PyError where
  | typeError (msg : String)
  | valueError (msg : String)
  | keyError (key : String)
  | notImplementedError
deriving DecidableEq, Repr

end Gpkg

namespace Gpkg

/-- Modelled from the spec: `validate_values` (the configuration/validation
helper, a repository function not included in the excerpt).  Per §4.1 it
checks each required key in order and "fails with a validation error naming
the missing/mistyped key", distinct from the geometry type error; on success
it reports no error. -/
def validate_values (config : List (String × PyVal)) :
    List (String × VType) → Except PyError Unit
  | [] => Except.ok ()
  | (key, vtype) :: rest =>
    match lookupKey config key with
    | none => Except.error (PyError.valueError (key ++ " not provided"))
    | some v =>
      if isType v vtype then validate_values config rest
      else Except.error (PyError.valueError (key ++ " is mistyped"))

/-- The fixed geometry-type enumeration accepted by
`OutputDataWriter.is_valid_with_config`. -/
def geometryTypes : List String :=
  ["Geometry", "Point", "MultiPoint", "Line", "MultiLine",
   "Polygon", "MultiPolygon"]

/-- Embeds `OutputDataWriter.is_valid_with_config`:

    validate_values(config, [("schema", dict), ("path", str)])
    validate_values(config["schema"], [("properties", dict), ("geometry", str)])
    if config["schema"]["geometry"] not in [...]:
        raise TypeError("invalid geometry type")
    return True

The arms in which `config["schema"]` is absent or not a mapping are
unreachable once the first `validate_values` succeeded; they model the
exception Python indexing would raise there. -/
def OutputDataWriter.is_valid_with_config
    (config : List (String × PyVal)) : Except PyError Bool :=
  match validate_values config [("schema", VType.dict), ("path", VType.str)] with
  | Except.error e => Except.error e
  | Except.ok () =>
    match lookupKey config "schema" with
    | some (PyVal.dict schema) =>
      match validate_values schema
          [("properties", VType.dict), ("geometry", VType.str)] with
      | Except.error e => Except.error e
      | Except.ok () =>
        match lookupKey schema "geometry" with
        | some (PyVal.str g) =>
          if g ∈ geometryTypes then Except.ok true
          else Except.error (PyError.typeError "invalid geometry type")
        | some _ => Except.error (PyError.typeError "invalid geometry type")
        | none => Except.error (PyError.keyError "geometry")
    | some _ => Except.error (PyError.typeError "schema is not a mapping")
    | none => Except.error (PyError.keyError "schema")

end Gpkg

namespace Gpkg

/-- The `data` argument of `OutputDataWriter.write` as Python sees it:
`None`, a list of features, a generator over a finite underlying sequence of
features, or some other sized object (e.g. a dict with `n` entries) that is
neither a list nor a generator. -/
inductive DataArg (F : Type) where
  | none
  | list (xs : List F)
  | gen (xs : List F)
  | other (len : Nat)
deriving DecidableEq, Repr

/-- One observable side effect of the write path: preparing a tile's output
path (directory creation) or delegating a codec encode call
(`write_vector_window`) for a tile at a path with the materialized features. -/
inductive WriteEvent (F : Type) where
  | preparePath (t : Tile)
  | encode (t : Tile) (path : String) (out_tile : BufferedTile)
      (schema : PyVal) (features : List F)

/-- Modelled from the spec: `get_path` (inherited from
`base.SingleFileOutputWriter`, not included in the excerpt).  Per §4.2 the
output path is "derived deterministically from the tile identifier and the
configured base path/extension", a pure function of both. -/
def get_path (basePath fileExtension : String) (t : Tile) : String :=
  basePath ++ "/" ++ toString t.zoom ++ "/" ++ toString t.row ++ "/" ++
    toString t.col ++ fileExtension

/-- The trace of side effects `write` performs for a single output tile:
`self.prepare_path(tile)` followed by the
`write_vector_window(...)` codec call (modelled from the spec as an encode
event, since `mapchete.io.vector.write_vector_window` is repository code not
included in the excerpt). -/
def tileEvents (basePath fileExtension : String) (schema : PyVal)
    (pixelbuffer : Nat) (xs : List F) (t : Tile) : List (WriteEvent F) :=
  [WriteEvent.preparePath t,
   WriteEvent.encode t (get_path basePath fileExtension t)
     (BufferedTile.mk t pixelbuffer) schema xs]

/-- Embeds `OutputDataWriter.write(process_tile, data)`.  Control flow of the
source, in order:

1. `if data is None or len(data) == 0: return` — for `None` and for sized
   empty objects this returns with no side effects.  In Python, `len` applied
   to a generator raises `TypeError: object of type 'generator' has no
   len()`, so every generator argument raises here, before the type guard
   below is reached.
2. `if not isinstance(data, (list, types.GeneratorType)): raise TypeError(...)`
   — reached only by non-empty sized objects of another shape.
3. `data = list(data)` — materialization (for a list, the same sequence).
4. `if not len(data): ... else:` fan-out — for each tile of
   `self.pyramid.intersecting(process_tile)`, derive the path, prepare it,
   buffer the tile and delegate to the codec.

The pyramid's `intersecting` is a parameter; the result is the list of
side-effect events (ok) or the raised exception (error). -/
def OutputDataWriter.write (intersecting : Tile → List Tile)
    (basePath fileExtension : String) (schema : PyVal) (pixelbuffer : Nat)
    (process_tile : Tile) (data : DataArg F) :
    Except PyError (List (WriteEvent F)) :=
  match data with
  | DataArg.none => Except.ok []
  | DataArg.gen _ =>
      Except.error (PyError.typeError "object of type generator has no len()")
  | DataArg.other n =>
      if n = 0 then Except.ok []
      else Except.error (PyError.typeError
        "GPKG driver data has to be a list or generator of GeoJSON objects")
  | DataArg.list xs =>
      if xs.length = 0 then Except.ok []
      else
        let materialized := xs
        if materialized.length = 0 then Except.ok []
        else Except.ok ((intersecting process_tile).flatMap
          (tileEvents basePath fileExtension schema pixelbuffer materialized))

/-- Embeds `OutputDataWriter.read(output_tile)`: `raise NotImplementedError`. -/
def OutputDataWriter.read (output_tile : Tile) :
    Except PyError (List F) :=
  Except.error PyError.notImplementedError

/-- Embeds `OutputDataWriter.empty(process_tile)`: `return []`. -/
def OutputDataWriter.empty (process_tile : Option Tile := Option.none) :
    List F :=
  []

/-- Embeds `OutputDataWriter.for_web(data)`:
`return list(data), "application/json"`. -/
def OutputDataWriter.for_web (data : List F) : List F × String :=
  (data, "application/json")

/-- The selection of encode events for a given tile out of a write trace. -/
def encodesFor (t : Tile) (evts : List (WriteEvent F)) : List (WriteEvent F) :=
  evts.filter (fun e =>
    match e with
    | WriteEvent.encode t' _ _ _ _ => decide (t' = t)
    | _ => false)

end Gpkg

namespace Gpkg

/-- The `InputTile._cache` dict.  Its keys are the boolean `validity_check`
flag, so it is exactly an optional feature list per flag value. -/
structure Cache (F : Type) where
  onTrue : Option (List F)
  onFalse : Option (List F)
deriving DecidableEq, Repr

/-- Python `validity_check in self._cache` / `self._cache[validity_check]`. -/
def cacheGet (c : Cache F) (flag : Bool) : Option (List F) :=
  if flag then c.onTrue else c.onFalse

/-- Python `self._cache[validity_check] = xs`. -/
def cacheSet (c : Cache F) (flag : Bool) (xs : List F) : Cache F :=
  if flag then { c with onTrue := some xs } else { c with onFalse := some xs }

/-- Embeds `InputTile.__init__`: `self._cache = {}` — a fresh view starts
with an empty cache. -/
def InputTile.freshCache : Cache F :=
  Cache.mk Option.none Option.none

/-- The exceptions observable from the read side: the explicit
`NotImplementedError`, or whatever exception (of ambient type `E`) the
upstream `process.get_raw_output` raised, propagated unchanged. -/
inductive ReadError (E : Type) where
  | notImplemented
  | procError (e : E)
deriving DecidableEq, Repr

/-- Embeds `InputTile._from_cache(validity_check)`:

    if validity_check not in self._cache:
        self._cache[validity_check] = self.process.get_raw_output(self.tile)
    return self._cache[validity_check]

`getRaw` is the outcome of one call to `process.get_raw_output(self.tile)` —
note the call takes no flag argument.  The result is the returned value (or
the propagated exception), the cache after the call, and how many
`get_raw_output` calls were made.  When `get_raw_output` raises, the
assignment never executes, so the cache is returned unchanged. -/
def InputTile._from_cache (getRaw : Except E (List F)) (validity_check : Bool)
    (c : Cache F) : (Except (ReadError E) (List F)) × Cache F × Nat :=
  match cacheGet c validity_check with
  | some xs => (Except.ok xs, c, 0)
  | Option.none =>
    match getRaw with
    | Except.ok xs => (Except.ok xs, cacheSet c validity_check xs, 1)
    | Except.error e => (Except.error (ReadError.procError e), c, 1)

/-- Embeds `InputTile.read(validity_check, no_neighbors)`:

    if no_neighbors:
        raise NotImplementedError()
    return self._from_cache(validity_check=validity_check)
-/
def InputTile.read (getRaw : Except E (List F))
    (validity_check no_neighbors : Bool) (c : Cache F) :
    (Except (ReadError E) (List F)) × Cache F × Nat :=
  if no_neighbors then (Except.error ReadError.notImplemented, c, 0)
  else InputTile._from_cache getRaw validity_check c

/-- Embeds `InputTile.is_empty(validity_check)`:
`return len(self._from_cache(validity_check=validity_check)) == 0`. -/
def InputTile.is_empty (getRaw : Except E (List F)) (validity_check : Bool)
    (c : Cache F) : (Except (ReadError E) Bool) × Cache F × Nat :=
  match InputTile._from_cache getRaw validity_check c with
  | (r, c', n) => (r.map (fun xs => xs.length == 0), c', n)

/-- Embeds `InputTile.__exit__(self, t, v, tb)`: `self._cache = {}`.  The
exception information `exc` (of arbitrary type, `Option.none` on a normal
exit) is ignored — the cache is cleared on every exit path. -/
def InputTile.exitScope (exc : Option X) (c : Cache F) : Cache F :=
  Cache.mk Option.none Option.none

end Gpkg

namespace Gpkg

theorem encodesFor_flatMap (basePath fileExtension : String) (schema : PyVal)
    (pixelbuffer : Nat) (xs : List F) (t : Tile) (l : List Tile)
    (hnd : l.Nodup) :
    encodesFor t
        (l.flatMap (tileEvents basePath fileExtension schema pixelbuffer xs)) =
      if t ∈ l then
        [WriteEvent.encode t (get_path basePath fileExtension t)
          (BufferedTile.mk t pixelbuffer) schema xs]
      else [] := by
  induction l with
  | nil => simp [encodesFor]
  | cons a l ih =>
    rw [List.nodup_cons] at hnd
    rw [List.flatMap_cons]
    unfold encodesFor at ih ⊢
    rw [List.filter_append, ih hnd.2]
    by_cases hat : a = t
    · subst hat
      simp [tileEvents, hnd.1]
    · simp [tileEvents, hat, Ne.symm hat]

/-- Claim C1: for every non-empty feature list `data`, `write(process_tile,
data)` performs exactly one codec encode call per tile of
`pyramid.intersecting(process_tile)` — at the path `get_path` derives as a
pure function of the tile identifier and the output parameters — and zero
encode calls for every tile outside that set. -/
theorem C1_write_fanout_exactly_intersecting (intersecting : Tile → List Tile)
    (basePath fileExtension : String) (schema : PyVal) (pixelbuffer : Nat)
    (process_tile : Tile) (xs : List F)
    (hne : xs ≠ [])
    (hnd : (intersecting process_tile).Nodup) :
    ∃ evts,
      OutputDataWriter.write intersecting basePath fileExtension schema
          pixelbuffer process_tile (DataArg.list xs) = Except.ok evts ∧
      ∀ t : Tile, encodesFor t evts =
        if t ∈ intersecting process_tile then
          [WriteEvent.encode t (get_path basePath fileExtension t)
            (BufferedTile.mk t pixelbuffer) schema xs]
        else [] := by
  refine ⟨(intersecting process_tile).flatMap
    (tileEvents basePath fileExtension schema pixelbuffer xs), ?_, ?_⟩
  · unfold OutputDataWriter.write
    simp [List.length_eq_zero, hne]
  · intro t
    exact encodesFor_flatMap basePath fileExtension schema pixelbuffer xs t _ hnd

theorem C1_witness :
    ∃ evts,
      OutputDataWriter.write (fun _ => [Tile.mk 1 0 0, Tile.mk 1 0 1]) "out"
          ".gpkg" PyVal.other 5 (Tile.mk 0 0 0)
          (DataArg.list [(7 : Nat), 8, 9]) = Except.ok evts ∧
      ∀ t : Tile, encodesFor t evts =
        if t ∈ [Tile.mk 1 0 0, Tile.mk 1 0 1] then
          [WriteEvent.encode t (get_path "out" ".gpkg" t)
            (BufferedTile.mk t 5) PyVal.other [(7 : Nat), 8, 9]]
        else [] :=
  C1_write_fanout_exactly_intersecting (fun _ => [Tile.mk 1 0 0, Tile.mk 1 0 1])
    "out" ".gpkg" PyVal.other 5 (Tile.mk 0 0 0) [7, 8, 9]
    (by decide) (by decide)

/-- Claim C4 (code bug): the claim says every non-empty generator of feature
records is accepted and materialized once; in the source, the guard
`if data is None or len(data) == 0` evaluates `len(data)` on the generator,
which raises `TypeError` for every generator before the `isinstance` guard
that explicitly permits `types.GeneratorType` is reached.  Evaluated here at
a one-element generator. -/
theorem C4_write_generator_raises_typeerror :
    OutputDataWriter.write (fun _ => [Tile.mk 0 0 0]) "out" ".gpkg"
        PyVal.other 0 (Tile.mk 0 0 0) (DataArg.gen [(1 : Nat)]) =
      Except.error (PyError.typeError "object of type generator has no len()") :=
  rfl

/-- Claim C5: for every process tile, `write(process_tile, None)` and
`write(process_tile, [])` return immediately with an empty side-effect
trace: no path is prepared, no directory is created, no codec encode call
occurs. -/
theorem C5_write_none_or_empty_is_noop (intersecting : Tile → List Tile)
    (basePath fileExtension : String) (schema : PyVal) (pixelbuffer : Nat)
    (process_tile : Tile) :
    OutputDataWriter.write intersecting basePath fileExtension schema
        pixelbuffer process_tile (DataArg.none (F := F)) = Except.ok [] ∧
    OutputDataWriter.write intersecting basePath fileExtension schema
        pixelbuffer process_tile (DataArg.list ([] : List F)) = Except.ok [] :=
  ⟨rfl, rfl⟩

/-- Claim C6: `__exit__` clears the cache regardless of the exception
information passed to it, so after any scope exit the next `read` — for any
flag value, whatever the process returns — makes exactly one fresh
`get_raw_output` call. -/
theorem C6_exit_clears_cache (exc : Option X) (c : Cache F)
    (getRaw : Except E (List F)) (flag : Bool) :
    InputTile.exitScope exc c = InputTile.freshCache ∧
    (InputTile.read getRaw flag false (InputTile.exitScope exc c)).2.2 = 1 := by
  refine ⟨rfl, ?_⟩
  cases flag <;> cases getRaw <;> rfl

/-- Claim C9: the writer's `read(output_tile)` raises `NotImplementedError`
for every output tile, and the input view's `read` with `no_neighbors=true`
raises `NotImplementedError` with the cache untouched and zero calls to
`process.get_raw_output`. -/
theorem C9_not_implemented_paths (output_tile : Tile)
    (getRaw : Except E (List F)) (flag : Bool) (c : Cache F) :
    OutputDataWriter.read (F := F) output_tile =
      Except.error PyError.notImplementedError ∧
    InputTile.read getRaw flag true c =
      (Except.error ReadError.notImplemented, c, 0) :=
  ⟨rfl, rfl⟩

/-- Claim C10: the `validity_check` flag never reaches the underlying
computation — `_from_cache` invokes `process.get_raw_output(self.tile)` with
no flag argument — so on a fresh view backed by a deterministic process,
`read(validity_check=true)` and `read(validity_check=false)` return the same
result. -/
theorem C10_flag_does_not_reach_process (getRaw : Except E (List F)) :
    (InputTile.read getRaw true false (InputTile.freshCache (F := F))).1 =
      (InputTile.read getRaw false false InputTile.freshCache).1 := by
  cases getRaw <;> rfl

end Gpkg

namespace Gpkg

/-- Claim C2: on one open view, two `read`s with the same flag return the
identical cached list while `get_raw_output` runs exactly once for that
flag; a later `read` with the other flag makes its own single call and is
cached under its own flag key. -/
theorem C2_cache_single_flight_per_flag (getRaw : Except E (List F))
    (xs : List F) (h : getRaw = Except.ok xs) :
    (InputTile.read getRaw true false (InputTile.freshCache (F := F))).1 =
      Except.ok xs ∧
    (InputTile.read getRaw true false InputTile.freshCache).2.2 = 1 ∧
    (InputTile.read getRaw true false
        (InputTile.read getRaw true false InputTile.freshCache).2.1).1 =
      Except.ok xs ∧
    (InputTile.read getRaw true false
        (InputTile.read getRaw true false InputTile.freshCache).2.1).2.2 = 0 ∧
    (InputTile.read getRaw false false
        (InputTile.read getRaw true false
          (InputTile.read getRaw true false
            InputTile.freshCache).2.1).2.1).1 = Except.ok xs ∧
    (InputTile.read getRaw false false
        (InputTile.read getRaw true false
          (InputTile.read getRaw true false
            InputTile.freshCache).2.1).2.1).2.2 = 1 ∧
    cacheGet
      (InputTile.read getRaw false false
        (InputTile.read getRaw true false
          (InputTile.read getRaw true false
            InputTile.freshCache).2.1).2.1).2.1 false = some xs := by
  subst h
  exact ⟨rfl, rfl, rfl, rfl, rfl, rfl, rfl⟩

theorem C2_witness :
    (InputTile.read (Except.ok [5] : Except Unit (List Nat)) true false
        InputTile.freshCache).1 = Except.ok [5] ∧
    (InputTile.read (Except.ok [5] : Except Unit (List Nat)) true false
        InputTile.freshCache).2.2 = 1 ∧
    (InputTile.read (Except.ok [5] : Except Unit (List Nat)) true false
        (InputTile.read (Except.ok [5] : Except Unit (List Nat)) true false
          InputTile.freshCache).2.1).1 = Except.ok [5] ∧
    (InputTile.read (Except.ok [5] : Except Unit (List Nat)) true false
        (InputTile.read (Except.ok [5] : Except Unit (List Nat)) true false
          InputTile.freshCache).2.1).2.2 = 0 ∧
    (InputTile.read (Except.ok [5] : Except Unit (List Nat)) false false
        (InputTile.read (Except.ok [5] : Except Unit (List Nat)) true false
          (InputTile.read (Except.ok [5] : Except Unit (List Nat)) true false
            InputTile.freshCache).2.1).2.1).1 = Except.ok [5] ∧
    (InputTile.read (Except.ok [5] : Except Unit (List Nat)) false false
        (InputTile.read (Except.ok [5] : Except Unit (List Nat)) true false
          (InputTile.read (Except.ok [5] : Except Unit (List Nat)) true false
            InputTile.freshCache).2.1).2.1).2.2 = 1 ∧
    cacheGet
      (InputTile.read (Except.ok [5] : Except Unit (List Nat)) false false
        (InputTile.read (Except.ok [5] : Except Unit (List Nat)) true false
          (InputTile.read (Except.ok [5] : Except Unit (List Nat)) true false
            InputTile.freshCache).2.1).2.1).2.1 false = some [5] :=
  C2_cache_single_flight_per_flag (Except.ok [5]) [5] rfl

/-- Claim C7: for every open view, flag value and cache state, `is_empty`
returns true exactly when `read` with the same flag yields the empty list,
and it leaves the same cache state and makes the same number of
`get_raw_output` calls as that `read` (both go through `_from_cache`). -/
theorem C7_is_empty_iff_read_empty (getRaw : Except E (List F)) (flag : Bool)
    (c : Cache F) :
    ((InputTile.is_empty getRaw flag c).1 = Except.ok true ↔
      (InputTile.read getRaw flag false c).1 = Except.ok []) ∧
    (InputTile.is_empty getRaw flag c).2 =
      (InputTile.read getRaw flag false c).2 := by
  unfold InputTile.is_empty InputTile.read InputTile._from_cache
  cases hc : cacheGet c flag <;> cases getRaw <;>
    simp [Except.map, List.length_eq_zero]

/-- Claim C8: when `get_raw_output` raises, the failure surfaces unchanged
through `read` and `is_empty`, the cache is left exactly as it was for that
flag (nothing is stored), and a subsequent `read` with the same flag calls
`get_raw_output` again. -/
theorem C8_failure_surfaces_and_is_not_cached (e : E) (flag : Bool)
    (c : Cache F) (hmiss : cacheGet c flag = Option.none) :
    InputTile.read (Except.error e) flag false c =
      (Except.error (ReadError.procError e), c, 1) ∧
    InputTile.is_empty (Except.error e) flag c =
      (Except.error (ReadError.procError e), c, 1) ∧
    (InputTile.read (Except.error e) flag false
        ((InputTile.read (Except.error e) flag false c).2.1)).2.2 = 1 := by
  unfold InputTile.is_empty InputTile.read InputTile._from_cache
  simp [hmiss, Except.map]

theorem C8_witness :
    InputTile.read (Except.error () : Except Unit (List Nat)) true false
        InputTile.freshCache =
      (Except.error (ReadError.procError ()), InputTile.freshCache, 1) ∧
    InputTile.is_empty (Except.error () : Except Unit (List Nat)) true
        InputTile.freshCache =
      (Except.error (ReadError.procError ()), InputTile.freshCache, 1) ∧
    (InputTile.read (Except.error () : Except Unit (List Nat)) true false
        ((InputTile.read (Except.error () : Except Unit (List Nat)) true false
          InputTile.freshCache).2.1)).2.2 = 1 :=
  C8_failure_surfaces_and_is_not_cached () true InputTile.freshCache rfl

/-- Claim C3: `is_valid_with_config` returns true for every config with a
mapping `schema` (holding a mapping `properties` and a string `geometry`
drawn from the fixed enumeration) and a string `path`; for such a config
whose geometry string lies outside the enumeration it raises the
`TypeError "invalid geometry type"` — a different error constructor from
the `ValueError` of the missing/mistyped-key validation — and it never
returns false. -/
theorem C3_is_valid_with_config_spec (config schema props :
      List (String × PyVal)) (p g : String)
    (hschema : lookupKey config "schema" = some (PyVal.dict schema))
    (hpath : lookupKey config "path" = some (PyVal.str p))
    (hprops : lookupKey schema "properties" = some (PyVal.dict props))
    (hgeom : lookupKey schema "geometry" = some (PyVal.str g)) :
    (g ∈ geometryTypes →
      OutputDataWriter.is_valid_with_config config = Except.ok true) ∧
    (g ∉ geometryTypes →
      OutputDataWriter.is_valid_with_config config =
        Except.error (PyError.typeError "invalid geometry type")) ∧
    (∀ cfg : List (String × PyVal),
      OutputDataWriter.is_valid_with_config cfg ≠ Except.ok false) := by
  have hval : OutputDataWriter.is_valid_with_config config =
      if g ∈ geometryTypes then Except.ok true
      else Except.error (PyError.typeError "invalid geometry type") := by
    unfold OutputDataWriter.is_valid_with_config
    simp [validate_values, hschema, hpath, hprops, hgeom, isType]
  refine ⟨fun h => by rw [hval, if_pos h], fun h => by rw [hval, if_neg h], ?_⟩
  intro cfg hfalse
  unfold OutputDataWriter.is_valid_with_config at hfalse
  repeat' split at hfalse
  all_goals simp_all

theorem C3_witness :
    OutputDataWriter.is_valid_with_config
        [("schema", PyVal.dict [("properties", PyVal.dict []),
            ("geometry", PyVal.str "Polygon")]),
         ("path", PyVal.str "out.gpkg")] = Except.ok true ∧
    OutputDataWriter.is_valid_with_config
        [("schema", PyVal.dict [("properties", PyVal.dict []),
            ("geometry", PyVal.str "Circle")]),
         ("path", PyVal.str "out.gpkg")] =
      Except.error (PyError.typeError "invalid geometry type") :=
  ⟨(C3_is_valid_with_config_spec
      [("schema", PyVal.dict [("properties", PyVal.dict []),
          ("geometry", PyVal.str "Polygon")]),
       ("path", PyVal.str "out.gpkg")]
      [("properties", PyVal.dict []), ("geometry", PyVal.str "Polygon")]
      [] "out.gpkg" "Polygon" rfl rfl rfl rfl).1 (by decide),
   (C3_is_valid_with_config_spec
      [("schema", PyVal.dict [("properties", PyVal.dict []),
          ("geometry", PyVal.str "Circle")]),
       ("path", PyVal.str "out.gpkg")]
      [("properties", PyVal.dict []), ("geometry", PyVal.str "Circle")]
      [] "out.gpkg" "Circle" rfl rfl rfl rfl).2.1 (by decide)⟩

end Gpkg
